import Mathlib

/-!
Verification development for the ComicTagger filename-templating engine and
its settings dialog / command-line glue code.

The GUI wiring (`comictaggerlib/settingswindow.py`) and the command-line
validation (`comictaggerlib/ctsettings/commandline.py`) are embedded from the
source.  The `FileRenamer` engine (`comictaggerlib/filerenamer.py`) is not part
of the sources at hand, only its callers are; those definitions are modelled
from the specification and marked as such in their doc comments.
-/

namespace ComicTagger

/-! ## Basic string machinery (character-list based, executable) -/

/-- Does `l` start with `p`? (character-list version of prefix testing). -/
def listStartsWith : List Char → List Char → Bool
  | _, [] => true
  | [], _ :: _ => false
  | c :: cs, d :: ds => c == d && listStartsWith cs ds

/-- Literal, case-sensitive, leftmost-first, non-overlapping replacement of
`find` by `repl`, in a single pass (replacement text is not rescanned).
This is the semantics of Python `str.replace` and of sec. 4.2 of the spec. -/
def replaceAllCh (find repl : List Char) : List Char → List Char
  | [] => []
  | c :: rest =>
    if h : find ≠ [] ∧ listStartsWith (c :: rest) find then
      repl ++ replaceAllCh find repl ((c :: rest).drop find.length)
    else
      c :: replaceAllCh find repl rest
termination_by l => l.length
decreasing_by
  · have hfind : 0 < find.length := List.length_pos.mpr h.1
    simp only [List.length_drop, List.length_cons]
    omega
  · simp only [List.length_cons]
    omega

/-- String wrapper for `replaceAllCh`. -/
def pyReplace (text find repl : String) : String :=
  String.mk (replaceAllCh find.data repl.data text.data)

/-- Collapse runs of whitespace into a single space character. -/
def collapseSpacesCh : Bool → List Char → List Char
  | _, [] => []
  | prevSpace, c :: rest =>
    if c.isWhitespace then
      if prevSpace then collapseSpacesCh true rest
      else ' ' :: collapseSpacesCh true rest
    else c :: collapseSpacesCh false rest

/-- Collapse whitespace runs in a string to single spaces. -/
def collapseSpaces (s : String) : String :=
  String.mk (collapseSpacesCh false s.data)

/-- Drop the longest suffix whose characters satisfy `p`. -/
def dropTrailing (p : Char → Bool) (s : String) : String :=
  String.mk ((s.data.reverse.dropWhile p).reverse)

/-- Strip leading and trailing whitespace (Python `str.strip` / `String.trim`,
re-implemented structurally over the character list). -/
def trimCh (s : String) : String :=
  String.mk (((s.data.dropWhile Char.isWhitespace).reverse.dropWhile
    Char.isWhitespace).reverse)

/-- Uppercase a string character-wise. -/
def upperCh (s : String) : String :=
  String.mk (s.data.map Char.toUpper)

/-- Lowercase a string character-wise. -/
def lowerCh (s : String) : String :=
  String.mk (s.data.map Char.toLower)

/-- Join strings with a separator. -/
def joinWith (sep : String) : List String → String
  | [] => ""
  | [x] => x
  | x :: y :: xs => x ++ sep ++ joinWith sep (y :: xs)

/-- Numeric value of a list of decimal digit characters. -/
def digitsToNat (cs : List Char) : Nat :=
  cs.foldl (fun n c => n * 10 + (c.toNat - '0'.toNat)) 0

/-- Number of bytes of the UTF-8 encoding of a character. -/
def charBytes (c : Char) : Nat :=
  if c.toNat < 0x80 then 1
  else if c.toNat < 0x800 then 2
  else if c.toNat < 0x10000 then 3
  else 4

/-- Number of bytes of the UTF-8 encoding of a string. -/
def utf8Len (s : String) : Nat :=
  s.data.foldl (fun n c => n + charBytes c) 0

/-- Keep the longest prefix of the characters that fits in `budget` UTF-8
bytes. -/
def takeBytes : Nat → List Char → List Char
  | _, [] => []
  | budget, c :: rest =>
    if charBytes c ≤ budget then c :: takeBytes (budget - charBytes c) rest
    else []

/-- Left-pad a digit string with zeros up to `width` (no-op on non-numeric or
already-wide-enough strings; width 0 disables padding). -/
def padNumber (width : Nat) (s : String) : String :=
  if s ≠ "" && s.data.all Char.isDigit && s.length < width then
    String.mk (List.replicate (width - s.length) '0') ++ s
  else s

/-! ## Data model: replacement rules (spec sec. 3) -/

/-- `ReplacementRule` from the spec; named `Replacement` as in
`comictaggerlib.filerenamer` whence `settingswindow.py` imports it. -/
structure Replacement where
  find : String
  replace : String
  strict_only : Bool
deriving DecidableEq, Repr

/-- The pair of rule sequences handed to the renamer: literal rules applied to
the rendered name, value rules applied to each resolved field. -/
structure Replacements where
  literal_rules : List Replacement
  value_rules : List Replacement
deriving DecidableEq, Repr

/-! ## Replacement engine (spec sec. 4.2) -/

/-- Modelled from the spec: one step of `apply(rules, text, strict)` of
sec. 4.2 of the `FileRenamer` engine, which is not among the sources.
A rule is skipped when `strict_only` holds but `strict` does not, and when its
`find` text is empty; otherwise a literal single-pass replace is performed. -/
def applyRule (strict : Bool) (text : String) (r : Replacement) : String :=
  if r.strict_only && !strict then text
  else if r.find = "" then text
  else pyReplace text r.find r.replace

/-- Modelled from the spec: `apply(rules, text, strict)` of sec. 4.2 —
sequential left-to-right application of the rules. -/
def applyRules (rules : List Replacement) (strict : Bool) (text : String) : String :=
  rules.foldl (applyRule strict) text

/-! ## Field resolver (spec sec. 4.1) -/

/-- Modelled from the spec: `ResolvedValue`, the tagged union a metadata field
resolves to (floating-point fields are out of scope of this embedding). -/
inductive ResolvedValue where
  | str (s : String)
  | int (n : Int)
  | bool (b : Bool)
  | list (xs : List String)
  | empty
deriving DecidableEq, Repr

/-- Modelled from the spec: a `MetadataRecord` viewed through the field
resolver — a mapping from placeholder names to resolved values. -/
def MetadataRecord := List (String × ResolvedValue)

/-- Modelled from the spec: looking a field up in the resolved mapping; an
unset or unknown field resolves to `Empty`, never to an error (sec. 4.1 and
the edge-case policy of sec. 4.3). -/
def resolveField (md : MetadataRecord) (name : String) : ResolvedValue :=
  match List.lookup name md with
  | some v => v
  | none => .empty

/-- Modelled from the spec: the fixed sample metadata record `md_test` from
`comicapi.genericmetadata` (not among the sources), instantiated with the
end-to-end example values of sec. 8 of the spec. -/
def md_test : MetadataRecord :=
  [("series", .str "Spider-Geddon"), ("issue", .str "1"), ("year", .int 2018),
   ("title", .str "New Players; Check In")]

/-- Modelled from the spec: textual form of a resolved value (sec. 4.3 step 4:
strings pass through, lists join with a comma-space, booleans default to the
empty string for false, `Empty` renders as nothing). -/
def renderValue : ResolvedValue → String
  | .str s => s
  | .int n => toString n
  | .bool b => if b then "true" else ""
  | .list xs => joinWith ", " xs
  | .empty => ""

/-! ## Template renderer (spec sec. 4.3)

The renderer is a left-to-right scan over the template; a span between the
opening and the closing delimiter is substituted by the resolved field value
(value rules applied first, the issue field zero-padded per configuration);
unbalanced delimiters are a hard error.  In the Python implementation this
error manifests as a `ValueError` (Python format-string machinery), which is
what `SettingsWindow.accept` tests with `isinstance(..., ValueError)`. -/

/-- Python exception slice relevant to the embedded code paths. -/
inductive PyError where
  | valueError (msg : String)
  | configError (msg : String)
  | attributeError (msg : String)
deriving DecidableEq, Repr

/-- Message text of an exception, as Python `str(e)` would produce. -/
def PyError.text : PyError → String
  | .valueError m => m
  | .configError m => m
  | .attributeError m => m

/-- Renderer scanning state: outside any placeholder, or inside one with the
accumulated span characters (reversed). -/
inductive RenderState where
  | literal
  | inSpan (acc : List Char)

/-- Modelled from the spec: substitute one placeholder span (sec. 4.3 steps
2-4): the field name is the span text up to an optional format-specifier
colon; value rules are applied to the string form; the issue field is
zero-padded with the configured width. -/
def renderField (md : MetadataRecord) (valueRules : List Replacement)
    (strict : Bool) (issuePadding : Nat) (span : String) : String :=
  let name := String.mk (span.data.takeWhile (fun c => c != ':'))
  let s := renderValue (resolveField md name)
  let s := applyRules valueRules strict s
  if name = "issue" then padNumber issuePadding s else s

/-- Modelled from the spec: the template scan of sec. 4.3 steps 1-2 and 5.
A closing delimiter outside a span, or a span left open at the end of the
template, is a hard template-syntax error (a Python `ValueError`). -/
def renderLoop (md : MetadataRecord) (valueRules : List Replacement)
    (strict : Bool) (issuePadding : Nat) :
    RenderState → String → List Char → Except PyError String
  | .literal, out, [] => .ok out
  | .inSpan _, _, [] =>
      .error (.valueError "Single open brace encountered in format string")
  | .literal, out, '{' :: rest =>
      renderLoop md valueRules strict issuePadding (.inSpan []) out rest
  | .literal, _, '}' :: _ =>
      .error (.valueError "Single close brace encountered in format string")
  | .literal, out, c :: rest =>
      renderLoop md valueRules strict issuePadding .literal (out.push c) rest
  | .inSpan acc, out, '}' :: rest =>
      let field := renderField md valueRules strict issuePadding
        (String.mk acc.reverse)
      renderLoop md valueRules strict issuePadding .literal (out ++ field) rest
  | .inSpan acc, out, c :: rest =>
      renderLoop md valueRules strict issuePadding (.inSpan (c :: acc)) out rest

/-- Modelled from the spec: smart cleanup (sec. 4.3, final paragraph) —
collapse whitespace runs, drop separator artifacts of omitted placeholders
(empty parentheses), and trim dangling separator punctuation. -/
def smartCleanup (s : String) : String :=
  let s := collapseSpaces s
  let s := pyReplace s "()" ""
  let s := trimCh s
  trimCh (dropTrailing (fun c => c == ' ' || c == '-' || c == ',' || c == '_') s)

/-! ## Sanitizer (spec sec. 4.4) -/

/-- Characters illegal across the union of supported filesystems (strict /
universal mode). -/
def universalIllegal : List Char := ['<', '>', ':', '"', '/', '\\', '|', '?', '*']

/-- Modelled from the spec: the illegal subset of the host platform used in `auto`
mode (a POSIX host: the path separator). -/
def autoIllegal : List Char := ['/']

/-- Is `c` illegal in a file name component under the given strictness?
Control characters are always illegal (sec. 4.4 step 2). -/
def isIllegalChar (strict : Bool) (c : Char) : Bool :=
  c.toNat < 32 || (if strict then universalIllegal else autoIllegal).contains c

/-- Platform-reserved device names (sec. 4.4 step 4, fixed list). -/
def reservedNames : List String :=
  ["CON", "PRN", "AUX", "NUL",
   "COM1", "COM2", "COM3", "COM4", "COM5", "COM6", "COM7", "COM8", "COM9",
   "LPT1", "LPT2", "LPT3", "LPT4", "LPT5", "LPT6", "LPT7", "LPT8", "LPT9"]

/-- Maximum file-name component length in bytes (sec. 4.4 step 5). -/
def maxComponentBytes : Nat := 255

/-- The fixed default stem substituted when everything sanitizes away
(sec. 4.4 step 6). -/
def defaultStem : String := "Unknown"

/-- Substitute the fixed default stem for an empty string. -/
def nonEmptyOr (s : String) : String :=
  if s = "" then defaultStem else s

/-- Modelled from the spec: `sanitize(raw_name, platform_mode)` of sec. 4.4,
with the caller-supplied (already normalized) extension whose byte length is
reserved when truncating the stem.  Total: it never fails. -/
def sanitize (raw : String) (platform : String)
    (literalRules : List Replacement) (ext : String) : String :=
  let strict := platform == "universal"
  let s := applyRules literalRules strict raw
  let s := String.mk (s.data.map (fun c => if isIllegalChar strict c then ' ' else c))
  let s := collapseSpaces s
  let s := dropTrailing (fun c => c == '.' || c == ' ') s
  let s := if reservedNames.contains (upperCh s) then s ++ "_" else s
  let s := String.mk (takeBytes (maxComponentBytes - utf8Len ext) s.data)
  nonEmptyOr s

/-- Modelled from the spec: extension normalization of sec. 4.5 — lowercase,
leading dot enforced. -/
def normalizeExt (ext : String) : String :=
  let e := lowerCh ext
  match e.data with
  | '.' :: _ => e
  | _ => "." ++ e

/-! ## Renamer orchestrator (spec sec. 4.5) -/

/-- Modelled from the spec: the `FileRenamer` engine state
(`comictaggerlib.filerenamer`, not among the sources): the metadata record it
was constructed with and the `RenamerConfig` fields of sec. 3. -/
structure FileRenamer where
  metadata : MetadataRecord
  platform : String
  replacements : Replacements
  template : String
  smart_cleanup : Bool
  issue_zero_padding : Nat
  move : Bool

/-- Modelled from the spec: `set_template` stores the template without parsing
it — it never raises (sec. 4.5). -/
def FileRenamer.set_template (fr : FileRenamer) (t : String) : FileRenamer :=
  { fr with template := t }

/-- Error message of the `ConfigError` raised by the padding setter. -/
def paddingErrMsg : String := "issue zero padding must be between 0 and 4"

/-- Modelled from the spec: `set_issue_zero_padding` is validated at call
time — padding outside the range 0-4 fails with `ConfigError` (sec. 4.5). -/
def FileRenamer.set_issue_zero_padding (fr : FileRenamer) (n : Int) :
    Except PyError FileRenamer :=
  if 0 ≤ n ∧ n ≤ 4 then .ok { fr with issue_zero_padding := n.toNat }
  else .error (.configError paddingErrMsg)

/-- Modelled from the spec: `set_smart_cleanup` stores the flag (sec. 4.5). -/
def FileRenamer.set_smart_cleanup (fr : FileRenamer) (b : Bool) : FileRenamer :=
  { fr with smart_cleanup := b }

/-- Modelled from the spec: `determine_name(metadata, extension)` of sec. 4.5,
composing resolver, renderer (value rules applied inside), sanitizer (literal
rules applied inside) and appending the normalized extension. -/
def FileRenamer.determine_name (fr : FileRenamer) (ext : String) :
    Except PyError String :=
  let strict := fr.platform == "universal"
  match renderLoop fr.metadata fr.replacements.value_rules strict
      fr.issue_zero_padding .literal "" fr.template.data with
  | .error e => .error e
  | .ok raw =>
    let cleaned := if fr.smart_cleanup then smartCleanup raw else raw
    let ne := normalizeExt ext
    .ok (sanitize cleaned fr.platform fr.replacements.literal_rules ne ++ ne)

/-! ## Settings dialog: replacement tables
(`settingswindow.py`, `insertRow` / `settings_to_form` / `get_replacemnts`) -/

/-- Check state of the third cell of a replacement-table row
(`QtCore.Qt.Checked` / `Qt.Unchecked`, the only two states the dialog ever
writes). -/
inductive CheckState where
  | checked
  | unchecked
deriving DecidableEq, Repr

/-- One row of a replacement table: the `find` text cell, the `replace` text
cell and the strict-only check cell. -/
structure TableRow where
  findText : String
  replaceText : String
  checkState : CheckState
deriving DecidableEq, Repr

/-- `SettingsWindow.insertRow` (settingswindow.py lines 344-354): the row
written into a table for a `Replacement` — find and replace as text items, the
check cell checked exactly for `strict_only`. -/
def insertRow (replacement : Replacement) : TableRow :=
  { findText := replacement.find
    replaceText := replacement.replace
    checkState := if replacement.strict_only then .checked else .unchecked }

/-- The replacement-table part of `SettingsWindow.settings_to_form`
(settingswindow.py lines 429-436): the table is cleared and one row inserted
per stored replacement, in order. -/
def settings_to_form_rows (stored : List Replacement) : List TableRow :=
  stored.map insertRow

/-- One table of `SettingsWindow.get_replacemnts` (settingswindow.py lines
438-459): rows whose find cell is non-empty (Python truthiness of
`item(row, 0).text()`) are turned back into `Replacement`s in table order,
strictness read as `checkState() == Qt.Checked`. -/
def get_replacemnts_rows : List TableRow → List Replacement
  | [] => []
  | r :: rs =>
    if r.findText ≠ "" then
      ⟨r.findText, r.replaceText, r.checkState == .checked⟩ :: get_replacemnts_rows rs
    else get_replacemnts_rows rs

/-! ## Settings dialog: rename preview (`SettingsWindow._rename_test`) -/

/-- The state of the rename-related widgets of the settings form. -/
structure RenameFormState where
  template : String
  strictChecked : Bool
  moveChecked : Bool
  smartCleanupChecked : Bool
  paddingText : String
  literalRows : List TableRow
  valueRows : List TableRow

/-- `SettingsWindow.get_replacemnts` (settingswindow.py lines 438-459): both
tables read back into a `Replacements` pair. -/
def get_replacemnts (form : RenameFormState) : Replacements :=
  ⟨get_replacemnts_rows form.literalRows, get_replacemnts_rows form.valueRows⟩

/-- The platform argument of the `FileRenamer` constructed by
`SettingsWindow._rename_test` (settingswindow.py line 367):
`"universal" if self.cbxRenameStrict.isChecked() else "auto"`. -/
def platformOf (strictChecked : Bool) : String :=
  if strictChecked then "universal" else "auto"

/-- Python `int(text)` on a line-edit text: optional sign followed by at least
one digit (surrounding whitespace stripped); anything else raises
`ValueError`. -/
def pyInt (s : String) : Except PyError Int :=
  let t := trimCh s
  let (sign, digits) :=
    match t.data with
    | '-' :: rest => ((-1 : Int), rest)
    | '+' :: rest => ((1 : Int), rest)
    | rest => ((1 : Int), rest)
  if digits ≠ [] ∧ digits.all Char.isDigit then
    .ok (sign * (digitsToNat digits : Int))
  else
    .error (.valueError ("invalid literal for int with base 10: " ++ s))

/-- The `FileRenamer` as configured by `SettingsWindow._rename_test`
(settingswindow.py lines 365-373): constructed on `md_test` with the platform
and the table replacements, the `move` field written directly, then template,
padding and smart cleanup set through the setters.  The padding text parse and
the padding setter sit outside the `try` block, so their errors propagate. -/
def previewRenamer (form : RenameFormState) : Except PyError FileRenamer :=
  match pyInt form.paddingText with
  | .error e => .error e
  | .ok padding =>
    let fr : FileRenamer :=
      { metadata := md_test
        platform := platformOf form.strictChecked
        replacements := get_replacemnts form
        template := ""
        smart_cleanup := false
        issue_zero_padding := 0
        move := false }
    let fr := { fr with move := form.moveChecked }
    let fr := fr.set_template form.template
    match fr.set_issue_zero_padding padding with
    | .error e => .error e
    | .ok fr => .ok (fr.set_smart_cleanup form.smartCleanupChecked)

/-- The preview outputs of `_rename_test`: the recorded error and the text of
the preview label. -/
structure PreviewState where
  rename_error : Option PyError
  labelText : String
deriving DecidableEq, Repr

/-- `SettingsWindow._rename_test` (settingswindow.py lines 364-379): build the
renamer, then inside `try` display `determine_name(".cbz")` and clear
`rename_error`, or record the caught exception and display its text.  An error
before the `try` (padding parse or padding setter) propagates and leaves the
previous preview state in place, which the `Except` error models. -/
def rename_test (form : RenameFormState) : Except PyError PreviewState :=
  match previewRenamer form with
  | .error e => .error e
  | .ok fr =>
    match fr.determine_name ".cbz" with
    | .ok name => .ok { rename_error := none, labelText := name }
    | .error e => .ok { rename_error := some e, labelText := e.text }

/-! ## Settings dialog: the padding-field validator
(`QtGui.QIntValidator(1, 4)` installed on `leIssueNumPadding`,
settingswindow.py lines 184-185) -/

/-- The three Qt validator verdicts. -/
inductive QState where
  | Invalid
  | Intermediate
  | Acceptable
deriving DecidableEq, Repr

/-- Model of the Qt 5 `QIntValidator` validate method (qvalidator.cpp, C locale):
empty input is Intermediate; non-digit characters (beyond one leading sign)
are Invalid; a lone sign is Intermediate, a minus sign is Invalid when the
bottom of the range is non-negative; an in-range number is Acceptable; an
out-of-range non-negative number is Invalid exactly when it exceeds the top
and its negation is below the bottom, otherwise Intermediate. -/
def qIntValidate (b t : Int) (input : String) : QState :=
  match input.data with
  | [] => .Intermediate
  | c0 :: cs =>
    let (sign, digits) :=
      if c0 = '-' then (some false, cs)
      else if c0 = '+' then (some true, cs)
      else (none, c0 :: cs)
    if ¬ digits.all Char.isDigit then .Invalid
    else if sign = some false ∧ 0 ≤ b then .Invalid
    else if sign = some true ∧ t < 0 then .Invalid
    else if digits = [] then .Intermediate
    else
      let entered : Int :=
        (if sign = some false then -1 else 1) * (digitsToNat digits : Int)
      if b ≤ entered ∧ entered ≤ t then .Acceptable
      else if 0 ≤ entered then
        if t < entered ∧ -entered < b then .Invalid else .Intermediate
      else
        if entered < b then .Invalid else .Intermediate

/-- A text can be typed into a line edit guarded by `QIntValidator(b, t)`:
every keystroke leaves the field in a non-Invalid state, i.e. no non-empty
prefix of the text validates as Invalid. -/
def canEnter (b t : Int) (input : String) : Bool :=
  (List.range input.length).all
    (fun i => qIntValidate b t (String.mk (input.data.take (i + 1))) != .Invalid)

/-! ## Settings dialog: `SettingsWindow.accept` (settingswindow.py 461-563) -/

/-- The slice of the persisted options written by `accept` that the rename
form controls. -/
structure Options where
  rename_template : String
  rename_issue_number_padding : Int
  rename_use_smart_string_cleanup : Bool
  rename_move_to_dir : Bool
  rename_strict : Bool
  rename_replacements : Replacements

/-- The padding value `accept` stores (settingswindow.py lines 498-499 and
534): a non-digit-string field text is first reset to `"0"`, then the text is
parsed as an integer. -/
def pyStorePadding (text : String) : Int :=
  let t := if text ≠ "" ∧ text.data.all Char.isDigit then text else "0"
  (digitsToNat t.data : Int)

/-- The form-to-options copy performed by `accept` once the rename test has
been dealt with (settingswindow.py lines 491-541, rename slice). -/
def storeForm (form : RenameFormState) (opts : Options) : Options :=
  { opts with
    rename_template := form.template
    rename_issue_number_padding := pyStorePadding form.paddingText
    rename_use_smart_string_cleanup := form.smartCleanupChecked
    rename_move_to_dir := form.moveChecked
    rename_strict := form.strictChecked
    rename_replacements := get_replacemnts form }

/-- Outcome of `SettingsWindow.accept`: either the dialog is accepted with the
form stored into the options, or a critical message is shown and the method
returns early with the options untouched, or an exception escapes the slot
(no storage, no dialog acceptance). -/
inductive AcceptOutcome where
  | stored (opts : Options)
  | rejectedShown (message : String) (opts : Options)
  | crashed (err : PyError)

/-- `SettingsWindow.accept` (settingswindow.py lines 461-563), as a function
of the rename-test result it observes in `self.rename_error`:
a `ValueError` shows the invalid-format-string dialog and returns early,
keeping the options; any other exception reaches
`logger.exception(..., self.renamer.metadata)` whose argument evaluation
raises `AttributeError` — `renamer` is never assigned on the window — so the
slot aborts before storing anything; with no error the form is copied into the
options and the dialog accepted. -/
def accept (form : RenameFormState) (renameError : Option PyError)
    (opts : Options) : AcceptOutcome :=
  match renameError with
  | some (.valueError m) =>
      .rejectedShown ("Your rename template is invalid! " ++ m) opts
  | some _ =>
      .crashed (.attributeError "SettingsWindow object has no attribute renamer")
  | none => .stored (storeForm form opts)

/-! ## Command line (`comictaggerlib/ctsettings/commandline.py`) -/

/-- `comictaggerlib.resulttypes.Action`: the command chosen on the command
line (`register_commands`). -/
inductive Action where
  | gui
  | print
  | delete
  | copy
  | save
  | rename
  | export
  | save_config
  | list_plugins
deriving DecidableEq, Repr

/-- The parsed command-line namespace fields read and written by
`validate_commandline_settings` (field names as in `commandline.py`). -/
structure RuntimeConfig where
  Commands__version : Bool
  Commands__command : Action
  Commands__copy : List String
  Runtime_Options__no_gui : Bool
  Runtime_Options__glob : Bool
  Runtime_Options__files : List String
  Runtime_Options__json : Bool
  Runtime_Options__interactive : Bool
  Runtime_Options__type_read : List String
  Runtime_Options__type_modify : List String
  Runtime_Options__recursive : Bool
deriving DecidableEq, Repr

/-- Environment of `validate_commandline_settings`: the host platform check
and the two filesystem-dependent file-list expansions, passed explicitly so
that the validation itself stays a pure function. -/
structure CmdEnv where
  platformIsWindows : Bool
  globExpand : List String → List String
  recursiveFilelist : List String → List String

/-- Statement at commandline.py lines 277-279: force `no_gui` when a
non-GUI command or a copy source is present. -/
def updateNoGui (c : RuntimeConfig) : RuntimeConfig :=
  { c with Runtime_Options__no_gui :=
      (c.Commands__command != Action.gui) || c.Runtime_Options__no_gui ||
        !c.Commands__copy.isEmpty }

/-- Statement at commandline.py lines 281-288: on Windows, expand the file
globs (the filesystem expansion itself is taken from the environment). -/
def updateGlob (env : CmdEnv) (c : RuntimeConfig) : RuntimeConfig :=
  if env.platformIsWindows && c.Runtime_Options__glob then
    { c with Runtime_Options__files := env.globExpand c.Runtime_Options__files }
  else c

/-- Statement at commandline.py lines 290-291: json output is dropped in
interactive mode. -/
def updateJson (c : RuntimeConfig) : RuntimeConfig :=
  if c.Runtime_Options__json && c.Runtime_Options__interactive then
    { c with Runtime_Options__json := false }
  else c

/-- Statement at commandline.py lines 293-294: read types default the modify
types. -/
def updateTypeDefaults (c : RuntimeConfig) : RuntimeConfig :=
  if !c.Runtime_Options__type_read.isEmpty &&
      c.Runtime_Options__type_modify.isEmpty then
    { c with Runtime_Options__type_modify := c.Runtime_Options__type_read }
  else c

/-- Statement at commandline.py line 310: a copy source turns the command
into `copy`. -/
def updateCopyCommand (c : RuntimeConfig) : RuntimeConfig :=
  if !c.Commands__copy.isEmpty then
    { c with Commands__command := Action.copy }
  else c

/-- Statement at commandline.py lines 314-315: recursive runs expand the file
list (expansion from the environment). -/
def updateRecursive (env : CmdEnv) (c : RuntimeConfig) : RuntimeConfig :=
  if c.Runtime_Options__recursive then
    { c with Runtime_Options__files :=
        env.recursiveFilelist c.Runtime_Options__files }
  else c

/-- `validate_commandline_settings` (commandline.py lines 269-338), with
`parser.exit` modelled as `Except.error` of the exit message, composed of the
per-statement updates above in source order.  The trailing rar-executable
path search only touches the process `PATH`, never the config, and is
therefore omitted. -/
def validate_commandline_settings (env : CmdEnv) (c : RuntimeConfig) :
    Except String RuntimeConfig :=
  if c.Commands__version then
    .error "ComicTagger version message"
  else
  let c := updateTypeDefaults (updateJson (updateGlob env (updateNoGui c)))
  if c.Commands__command ∉ [Action.save_config, Action.list_plugins] ∧
      c.Runtime_Options__no_gui = true ∧ c.Runtime_Options__files = [] then
    .error "Command requires at least one filename!"
  else if c.Commands__command = Action.delete ∧
      c.Runtime_Options__type_modify = [] then
    .error "Please specify the type to delete with --type-modify"
  else if c.Commands__command = Action.save ∧
      c.Runtime_Options__type_modify = [] then
    .error "Please specify the type to save with --type-modify"
  else
  let c := updateCopyCommand c
  if !c.Commands__copy.isEmpty ∧ c.Runtime_Options__type_modify = [] then
    .error "Please specify the type to copy to with --type-modify"
  else
  .ok (updateRecursive env c)

/-! ## C8: mutation discipline of the preview renamer -/

/-- A configuration mutation performed on a `FileRenamer` by a caller. -/
inductive RenamerMutation where
  | setTemplate
  | setIssueZeroPadding
  | setSmartCleanup
  | directFieldWrite (field : String)
deriving DecidableEq, Repr

/-- Is the mutation one of the three explicit setters of the engine? -/
def RenamerMutation.isExplicitSetter : RenamerMutation → Bool
  | .setTemplate => true
  | .setIssueZeroPadding => true
  | .setSmartCleanup => true
  | .directFieldWrite _ => false

/-- The configuration mutations `SettingsWindow._rename_test` performs between
constructing the `FileRenamer` (settingswindow.py lines 365-369) and calling
`determine_name` (line 375), transcribed in source order (lines 370-373):
the direct assignment `fr.move = self.cbxMoveFiles.isChecked()` followed by
the three setter calls. -/
def renameTestMutations : List RenamerMutation :=
  [.directFieldWrite "move", .setTemplate, .setIssueZeroPadding,
   .setSmartCleanup]

/-! ## Sample values used by witnesses -/

/-- A concrete renamer configuration used by witnesses. -/
def sampleRenamer : FileRenamer :=
  { metadata := md_test
    platform := "auto"
    replacements := ⟨[], []⟩
    template := "abc"
    smart_cleanup := false
    issue_zero_padding := 2
    move := false }

/-- A concrete rename-form state used by witnesses. -/
def sampleForm : RenameFormState :=
  { template := "abc"
    strictChecked := false
    moveChecked := false
    smartCleanupChecked := false
    paddingText := "2"
    literalRows := []
    valueRows := [] }

/-- A concrete options record used by witnesses. -/
def sampleOptions : Options :=
  { rename_template := "{series} {issue}"
    rename_issue_number_padding := 3
    rename_use_smart_string_cleanup := true
    rename_move_to_dir := false
    rename_strict := false
    rename_replacements := ⟨[], []⟩ }

/-- A concrete command-line environment used by witnesses (non-Windows host,
identity file-list expansions). -/
def sampleCmdEnv : CmdEnv := ⟨false, id, id⟩

/-- A concrete parsed command line used by witnesses: both json and
interactive requested. -/
def sampleCmd : RuntimeConfig :=
  { Commands__version := false
    Commands__command := .gui
    Commands__copy := []
    Runtime_Options__no_gui := false
    Runtime_Options__glob := false
    Runtime_Options__files := ["x.cbz"]
    Runtime_Options__json := true
    Runtime_Options__interactive := true
    Runtime_Options__type_read := []
    Runtime_Options__type_modify := []
    Runtime_Options__recursive := false }

/-- The validated form of `sampleCmd`: json reset, interactive kept. -/
def sampleCmdOut : RuntimeConfig :=
  { sampleCmd with Runtime_Options__json := false }

/-! ## Helper lemmas -/

/-- `get_replacemnts_rows` is the filter of the non-empty-find rows, mapped
back to replacements. -/
theorem get_replacemnts_rows_eq (rows : List TableRow) :
    get_replacemnts_rows rows =
      (rows.filter (fun row => row.findText ≠ "")).map
        (fun row => ⟨row.findText, row.replaceText, row.checkState == .checked⟩) := by
  induction rows with
  | nil => rfl
  | cons r rs ih =>
    by_cases hr : r.findText = ""
    · rw [get_replacemnts_rows, List.filter_cons_of_neg (by simpa using hr),
        if_neg (by simpa using hr), ih]
    · rw [get_replacemnts_rows, List.filter_cons_of_pos (by simpa using hr),
        if_pos hr, List.map_cons, ih]

/-- Every replacement read back from a table has a non-empty find text. -/
theorem mem_get_replacemnts_rows {rows : List TableRow} {r : Replacement}
    (h : r ∈ get_replacemnts_rows rows) : r.find ≠ "" := by
  rw [get_replacemnts_rows_eq] at h
  simp only [List.mem_map] at h
  obtain ⟨row, hrow, rfl⟩ := h
  simpa using List.of_mem_filter hrow

/-- Populating a table from stored replacements and reading it back yields the
stored rules with a non-empty find, in order, fields intact. -/
theorem get_replacemnts_settings_to_form (reps : List Replacement) :
    get_replacemnts_rows (settings_to_form_rows reps) =
      reps.filter (fun r => r.find ≠ "") := by
  induction reps with
  | nil => rfl
  | cons r rs ih =>
    have hcs : ((if r.strict_only then CheckState.checked else .unchecked) ==
        CheckState.checked) = r.strict_only := by
      cases r.strict_only <;> rfl
    rw [settings_to_form_rows, List.map_cons, get_replacemnts_rows]
    by_cases hr : r.find = ""
    · rw [if_neg (by simp [insertRow, hr]),
        List.filter_cons_of_neg (by simpa using hr)]
      exact ih
    · rw [if_pos (by simp [insertRow, hr]),
        List.filter_cons_of_pos (by simpa using hr)]
      rw [show get_replacemnts_rows (List.map insertRow rs) =
          get_replacemnts_rows (settings_to_form_rows rs) from rfl, ih]
      simp only [insertRow, hcs]

/-- The final sanitizer step never leaves an empty string. -/
theorem nonEmptyOr_ne_empty (s : String) : nonEmptyOr s ≠ "" := by
  unfold nonEmptyOr
  split
  · intro h
    exact absurd h (by decide)
  · assumption

/-- `sanitize` always returns a non-empty string. -/
theorem sanitize_ne_empty (raw platform : String)
    (rules : List Replacement) (ext : String) :
    sanitize raw platform rules ext ≠ "" := by
  unfold sanitize
  exact nonEmptyOr_ne_empty _

/-- `updateNoGui` leaves the json flag alone. -/
theorem updateNoGui_json (c : RuntimeConfig) :
    (updateNoGui c).Runtime_Options__json = c.Runtime_Options__json := rfl

/-- `updateNoGui` leaves the interactive flag alone. -/
theorem updateNoGui_interactive (c : RuntimeConfig) :
    (updateNoGui c).Runtime_Options__interactive =
      c.Runtime_Options__interactive := rfl

/-- `updateGlob` leaves the json flag alone. -/
theorem updateGlob_json (env : CmdEnv) (c : RuntimeConfig) :
    (updateGlob env c).Runtime_Options__json = c.Runtime_Options__json := by
  unfold updateGlob
  split <;> rfl

/-- `updateGlob` leaves the interactive flag alone. -/
theorem updateGlob_interactive (env : CmdEnv) (c : RuntimeConfig) :
    (updateGlob env c).Runtime_Options__interactive =
      c.Runtime_Options__interactive := by
  unfold updateGlob
  split <;> rfl

/-- `updateJson` resets the json flag exactly when json and interactive were
both set. -/
theorem updateJson_json (c : RuntimeConfig) :
    (updateJson c).Runtime_Options__json =
      (if c.Runtime_Options__json && c.Runtime_Options__interactive then false
       else c.Runtime_Options__json) := by
  unfold updateJson
  split <;> simp_all

/-- `updateJson` leaves the interactive flag alone. -/
theorem updateJson_interactive (c : RuntimeConfig) :
    (updateJson c).Runtime_Options__interactive =
      c.Runtime_Options__interactive := by
  unfold updateJson
  split <;> rfl

/-- `updateTypeDefaults` leaves the json flag alone. -/
theorem updateTypeDefaults_json (c : RuntimeConfig) :
    (updateTypeDefaults c).Runtime_Options__json =
      c.Runtime_Options__json := by
  unfold updateTypeDefaults
  split <;> rfl

/-- `updateTypeDefaults` leaves the interactive flag alone. -/
theorem updateTypeDefaults_interactive (c : RuntimeConfig) :
    (updateTypeDefaults c).Runtime_Options__interactive =
      c.Runtime_Options__interactive := by
  unfold updateTypeDefaults
  split <;> rfl

/-- `updateCopyCommand` leaves the json flag alone. -/
theorem updateCopyCommand_json (c : RuntimeConfig) :
    (updateCopyCommand c).Runtime_Options__json =
      c.Runtime_Options__json := by
  unfold updateCopyCommand
  split <;> rfl

/-- `updateCopyCommand` leaves the interactive flag alone. -/
theorem updateCopyCommand_interactive (c : RuntimeConfig) :
    (updateCopyCommand c).Runtime_Options__interactive =
      c.Runtime_Options__interactive := by
  unfold updateCopyCommand
  split <;> rfl

/-- `updateRecursive` leaves the json flag alone. -/
theorem updateRecursive_json (env : CmdEnv) (c : RuntimeConfig) :
    (updateRecursive env c).Runtime_Options__json =
      c.Runtime_Options__json := by
  unfold updateRecursive
  split <;> rfl

/-- `updateRecursive` leaves the interactive flag alone. -/
theorem updateRecursive_interactive (env : CmdEnv) (c : RuntimeConfig) :
    (updateRecursive env c).Runtime_Options__interactive =
      c.Runtime_Options__interactive := by
  unfold updateRecursive
  split <;> rfl

/-! ## Claim theorems -/

/-- C4: for every state of the replacement tables, the rule sequences handed
to the renamer contain no rule with an empty find string: rows with an empty
find cell are dropped as no-ops, and all rows with a non-empty find are kept
in table order with their replace text and strict-only flag. -/
theorem C4_empty_find_rows_skipped (form : RenameFormState) :
    (∀ r ∈ (get_replacemnts form).literal_rules, r.find ≠ "") ∧
    (∀ r ∈ (get_replacemnts form).value_rules, r.find ≠ "") ∧
    (get_replacemnts form).literal_rules =
      (form.literalRows.filter (fun row => row.findText ≠ "")).map
        (fun row => ⟨row.findText, row.replaceText, row.checkState == .checked⟩) ∧
    (get_replacemnts form).value_rules =
      (form.valueRows.filter (fun row => row.findText ≠ "")).map
        (fun row => ⟨row.findText, row.replaceText, row.checkState == .checked⟩) :=
  ⟨fun _ h => mem_get_replacemnts_rows h,
   fun _ h => mem_get_replacemnts_rows h,
   get_replacemnts_rows_eq _,
   get_replacemnts_rows_eq _⟩

/-- C4 witness: at a concrete two-row table, the claim theorem applies and the
non-empty-find rule indeed has a non-empty find. -/
theorem C4_empty_find_rows_skipped_witness :
    (⟨"a", "b", true⟩ : Replacement).find ≠ "" :=
  (C4_empty_find_rows_skipped
      { sampleForm with literalRows := [⟨"", "x", .checked⟩, ⟨"a", "b", .checked⟩] }).1
    ⟨"a", "b", true⟩ (by decide)

/-- C9: populating the two replacement tables from the stored
`rename_replacements` and reading them back with `get_replacemnts` yields
exactly the stored rules whose find string is non-empty, in order, with the
same find, replace and strict-only values. -/
theorem C9_settings_form_roundtrip (stored : Replacements) :
    get_replacemnts_rows (settings_to_form_rows stored.literal_rules) =
      stored.literal_rules.filter (fun r => r.find ≠ "") ∧
    get_replacemnts_rows (settings_to_form_rows stored.value_rules) =
      stored.value_rules.filter (fun r => r.find ≠ "") :=
  ⟨get_replacemnts_settings_to_form _, get_replacemnts_settings_to_form _⟩

/-- C5: the rename preview constructs the renamer with platform mode
`universal` exactly when the strict box is checked and with `auto` otherwise,
and a strict-only replacement rule is a no-op under the non-strict path but is
applied (single-pass literal replace) under the strict one. -/
theorem C5_strict_gating :
    (∀ b : Bool, (platformOf b = "universal" ↔ b = true) ∧
      (platformOf b = "auto" ↔ b = false)) ∧
    (∀ (r : Replacement) (text : String), r.strict_only = true →
      applyRule false text r = text ∧
      applyRule true text r =
        (if r.find = "" then text else pyReplace text r.find r.replace)) := by
  constructor
  · intro b
    cases b <;> refine ⟨?_, ?_⟩ <;> simp only [platformOf, if_true, if_false] <;> decide
  · intro r text h
    constructor
    · simp [applyRule, h]
    · simp only [applyRule, h]
      rfl

/-- C5 witness: at a concrete strict-only rule, the strict flag gates the
replacement: unchecked strict leaves the text alone, checked strict rewrites
it, and the platform strings are as claimed. -/
theorem C5_strict_gating_witness :
    (platformOf true = "universal" ↔ true = true) ∧
    applyRule false "a b" ⟨"b", "c", true⟩ = "a b" ∧
    applyRule true "a b" ⟨"b", "c", true⟩ =
      (if ("b" : String) = "" then "a b" else pyReplace "a b" "b" "c") :=
  ⟨(C5_strict_gating.1 true).1,
   (C5_strict_gating.2 ⟨"b", "c", true⟩ "a b" rfl).1,
   (C5_strict_gating.2 ⟨"b", "c", true⟩ "a b" rfl).2⟩

/-- C6: `determine_name` is deterministic — two renamers that agree on the
metadata record and on every configuration field (template, platform mode,
issue zero padding, smart cleanup, replacement rules, move flag), applied to
equal extensions, produce identical results; there is no dependence on
anything else. -/
theorem C6_determine_name_deterministic (fr fr' : FileRenamer)
    (ext ext' : String)
    (hmd : fr.metadata = fr'.metadata)
    (hpl : fr.platform = fr'.platform)
    (hre : fr.replacements = fr'.replacements)
    (hte : fr.template = fr'.template)
    (hsc : fr.smart_cleanup = fr'.smart_cleanup)
    (hiz : fr.issue_zero_padding = fr'.issue_zero_padding)
    (hmv : fr.move = fr'.move)
    (hex : ext = ext') :
    fr.determine_name ext = fr'.determine_name ext' := by
  cases fr
  cases fr'
  simp only at hmd hpl hre hte hsc hiz hmv
  subst hmd hpl hre hte hsc hiz hmv hex
  rfl

/-- C6 witness: the determinism theorem applied at two syntactically distinct
but fieldwise-equal renamers. -/
theorem C6_determine_name_deterministic_witness :
    FileRenamer.determine_name sampleRenamer ".cbz" =
      FileRenamer.determine_name
        { metadata := md_test, platform := "auto", replacements := ⟨[], []⟩,
          template := "abc", smart_cleanup := false, issue_zero_padding := 2,
          move := false } ".cbz" :=
  C6_determine_name_deterministic _ _ _ _ rfl rfl rfl rfl rfl rfl rfl rfl

/-- C7: sanitization never fails and never yields an empty result — it is a
total function with a non-empty output for every input — and whenever
`determine_name` returns a name, that name consists of a non-empty stem
followed by the normalized extension. -/
theorem C7_nonempty_stem :
    (∀ (raw platform : String) (rules : List Replacement) (ext : String),
      sanitize raw platform rules ext ≠ "") ∧
    (∀ (fr : FileRenamer) (ext name : String),
      fr.determine_name ext = .ok name →
      ∃ stem, stem ≠ "" ∧ name = stem ++ normalizeExt ext) := by
  refine ⟨sanitize_ne_empty, ?_⟩
  intro fr ext name h
  simp only [FileRenamer.determine_name] at h
  rcases hrl : renderLoop fr.metadata fr.replacements.value_rules
      (fr.platform == "universal") fr.issue_zero_padding .literal ""
      fr.template.data with e | raw
  · rw [hrl] at h
    exact absurd h (by simp)
  · rw [hrl] at h
    simp only [Except.ok.injEq] at h
    exact ⟨_, sanitize_ne_empty _ _ _ _, h.symm⟩

/-- C7 witness: the concrete sample renamer renders to a name whose stem is
non-empty, and a concrete sanitization is non-empty. -/
theorem C7_nonempty_stem_witness :
    sanitize "" "universal" [] ".cbz" ≠ "" ∧
    ∃ stem, stem ≠ "" ∧ "abc.cbz" = stem ++ normalizeExt ".cbz" :=
  ⟨C7_nonempty_stem.1 "" "universal" [] ".cbz",
   C7_nonempty_stem.2 sampleRenamer ".cbz" "abc.cbz" (by rfl)⟩

/-- C1: if the rename test run by `accept` fails with a malformed template
(a Python `ValueError`), the error message is shown to the user, the method
returns early, and the options — the previous valid template state included —
are left untouched; and the form is copied into the options only when the
rename test produced no error at all. -/
theorem C1_accept_keeps_state_on_failure :
    (∀ (form : RenameFormState) (opts : Options) (m : String),
      accept form (some (.valueError m)) opts =
        .rejectedShown ("Your rename template is invalid! " ++ m) opts) ∧
    (∀ (form : RenameFormState) (err : Option PyError) (opts res : Options),
      accept form err opts = .stored res →
      err = none ∧ res = storeForm form opts) := by
  refine ⟨fun _ _ _ => rfl, ?_⟩
  intro form err opts res h
  match err with
  | none =>
    simp only [accept] at h
    cases h
    exact ⟨rfl, rfl⟩
  | some (.valueError m) =>
    simp only [accept] at h
    exact absurd h (by simp)
  | some (.configError m) =>
    simp only [accept] at h
    exact absurd h (by simp)
  | some (.attributeError m) =>
    simp only [accept] at h
    exact absurd h (by simp)

/-- C1 witness: at a concrete form and options, a value error is rejected
with the options kept, and the success path stores exactly the form. -/
theorem C1_accept_keeps_state_on_failure_witness :
    accept sampleForm (some (.valueError "bad")) sampleOptions =
      .rejectedShown ("Your rename template is invalid! " ++ "bad")
        sampleOptions ∧
    ((none : Option PyError) = none ∧
      storeForm sampleForm sampleOptions = storeForm sampleForm sampleOptions) :=
  ⟨C1_accept_keeps_state_on_failure.1 sampleForm sampleOptions "bad",
   C1_accept_keeps_state_on_failure.2 sampleForm none sampleOptions
     (storeForm sampleForm sampleOptions) (by rfl)⟩

/-- C2: the padding setter rejects every value outside 0-4 with a
`ConfigError`; every value 0-4 — 0 included — can be typed into the padding
field past its `QIntValidator(1, 4)` (0 is an Intermediate state, which a line
edit accepts), survives the digit check of `accept` and is stored as itself;
and the value `accept` stores is exactly the field-text parse. -/
theorem C2_padding_range :
    (∀ (fr : FileRenamer) (n : Int), n < 0 ∨ 4 < n →
      fr.set_issue_zero_padding n = .error (.configError paddingErrMsg)) ∧
    (∀ k : Fin 5,
      canEnter 1 4 (toString k.val) = true ∧
      pyStorePadding (toString k.val) = (k.val : Int) ∧
      ∀ fr : FileRenamer, fr.set_issue_zero_padding (k.val : Int) =
        .ok { fr with issue_zero_padding := k.val }) ∧
    (∀ (form : RenameFormState) (opts : Options),
      (storeForm form opts).rename_issue_number_padding =
        pyStorePadding form.paddingText) := by
  refine ⟨?_, ?_, fun _ _ => rfl⟩
  · intro fr n hn
    rw [FileRenamer.set_issue_zero_padding, if_neg (by omega)]
  · intro k
    refine ⟨?_, ?_, ?_⟩
    · fin_cases k <;> decide
    · fin_cases k <;> decide
    · intro fr
      have hk := k.isLt
      rw [FileRenamer.set_issue_zero_padding, if_pos (by omega)]
      have h2 : ((k.val : Int)).toNat = k.val := Int.toNat_natCast k.val
      rw [h2]

/-- C2 witness: padding 7 is rejected by the setter, 0 is enterable in the
validated field, and the store step reads the field text. -/
theorem C2_padding_range_witness :
    sampleRenamer.set_issue_zero_padding 7 =
      .error (.configError paddingErrMsg) ∧
    canEnter 1 4 (toString (0 : Fin 5).val) = true ∧
    (storeForm sampleForm sampleOptions).rename_issue_number_padding =
      pyStorePadding sampleForm.paddingText :=
  ⟨C2_padding_range.1 sampleRenamer 7 (Or.inr (by omega)),
   (C2_padding_range.2.1 0).1,
   C2_padding_range.2.2 sampleForm sampleOptions⟩

/-- C3: configuration is validated lazily — `set_template` is a total store
that never raises — and the preview `_rename_test` catches exactly the
render-time failures: whenever the preview run completes, `rename_error` is
`None` if and only if `determine_name` returned a name, and a recorded error
is displayed as its text in place of a name. -/
theorem C3_lazy_template_validation :
    (∀ (fr : FileRenamer) (t : String),
      (fr.set_template t).template = t ∧
      (fr.set_template t).metadata = fr.metadata ∧
      (fr.set_template t).platform = fr.platform) ∧
    (∀ (form : RenameFormState) (st : PreviewState) (fr : FileRenamer),
      rename_test form = .ok st → previewRenamer form = .ok fr →
      ((st.rename_error = none ↔
          ∃ name, fr.determine_name ".cbz" = .ok name) ∧
       (∀ e, st.rename_error = some e →
          fr.determine_name ".cbz" = .error e ∧ st.labelText = e.text) ∧
       (∀ name, fr.determine_name ".cbz" = .ok name →
          st.labelText = name))) := by
  refine ⟨fun fr t => ⟨rfl, rfl, rfl⟩, ?_⟩
  intro form st fr h hp
  simp only [rename_test, hp] at h
  rcases hd : fr.determine_name ".cbz" with e | name <;>
    simp only [hd, Except.ok.injEq] at h <;> subst h
  · refine ⟨by simp, ?_, ?_⟩
    · intro e2 he2
      cases he2
      exact ⟨rfl, rfl⟩
    · intro name hname
      exact absurd hname (by simp)
  · refine ⟨by simp, ?_, ?_⟩
    · intro e2 he2
      cases he2
    · intro name2 hname2
      cases hname2
      rfl

/-- C3 witness: at the sample form the preview run completes with no error,
matching a successful `determine_name` on the renamer it built. -/
theorem C3_lazy_template_validation_witness :
    (({ rename_error := none, labelText := "abc.cbz" } :
        PreviewState).rename_error = none ↔
      ∃ name, sampleRenamer.determine_name ".cbz" = .ok name) :=
  (C3_lazy_template_validation.2 sampleForm
    { rename_error := none, labelText := "abc.cbz" } sampleRenamer
    (by rfl) (by rfl)).1

/-- C8 counterexample: the preview code writes the `move` configuration field
directly between construction and the `determine_name` call — a mutation that
is not one of the explicit setters — so the claim as stated is false. -/
theorem C8_direct_move_write_refutes :
    RenamerMutation.directFieldWrite "move" ∈ renameTestMutations ∧
    (RenamerMutation.directFieldWrite "move").isExplicitSetter = false := by
  decide

/-- C8 (amended): between construction and `determine_name`, every
configuration mutation performed by `_rename_test` is either one of the three
explicit setters or the single direct assignment to the `move` field; and no
implicit global state influences the render — `determine_name` is a function
of the metadata record, the configuration fields and the extension alone. -/
theorem C8_mutations_characterized :
    (∀ op ∈ renameTestMutations,
      op.isExplicitSetter = true ∨
        op = RenamerMutation.directFieldWrite "move") ∧
    (∀ (fr fr2 : FileRenamer) (ext ext2 : String),
      fr.metadata = fr2.metadata → fr.platform = fr2.platform →
      fr.replacements = fr2.replacements → fr.template = fr2.template →
      fr.smart_cleanup = fr2.smart_cleanup →
      fr.issue_zero_padding = fr2.issue_zero_padding →
      fr.move = fr2.move → ext = ext2 →
      fr.determine_name ext = fr2.determine_name ext2) := by
  refine ⟨by decide, ?_⟩
  intro fr fr2 ext ext2 hmd hpl hre hte hsc hiz hmv hex
  cases fr
  cases fr2
  simp only at hmd hpl hre hte hsc hiz hmv
  subst hmd hpl hre hte hsc hiz hmv hex
  rfl

/-- C8 witness: the template-setter mutation is among the characterized
operations, and the purity conjunct holds at a concrete renamer and
extension. -/
theorem C8_mutations_characterized_witness :
    (RenamerMutation.setTemplate.isExplicitSetter = true ∨
      RenamerMutation.setTemplate = RenamerMutation.directFieldWrite "move") ∧
    FileRenamer.determine_name
        { metadata := md_test, platform := "universal",
          replacements := ⟨[], []⟩, template := "{series}",
          smart_cleanup := true, issue_zero_padding := 0, move := true }
        ".CBZ" =
      FileRenamer.determine_name
        { metadata := md_test, platform := "universal",
          replacements := ⟨[], []⟩, template := "{series}",
          smart_cleanup := true, issue_zero_padding := 0, move := true }
        ".CBZ" :=
  ⟨C8_mutations_characterized.1 .setTemplate (by decide),
   C8_mutations_characterized.2 _ _ _ _ rfl rfl rfl rfl rfl rfl rfl rfl⟩

/-- C10: after `validate_commandline_settings` returns, interactive mode is
untouched, the json flag has been reset to false exactly when both json and
interactive were set (and left unchanged otherwise), so json output and
interactive mode are never both enabled. -/
theorem C10_json_interactive_exclusive (env : CmdEnv) (c c' : RuntimeConfig)
    (h : validate_commandline_settings env c = .ok c') :
    c'.Runtime_Options__interactive = c.Runtime_Options__interactive ∧
    c'.Runtime_Options__json =
      (if c.Runtime_Options__json && c.Runtime_Options__interactive then false
       else c.Runtime_Options__json) ∧
    (c'.Runtime_Options__json = true →
      c'.Runtime_Options__interactive = false) := by
  have hj : c'.Runtime_Options__json =
      (if c.Runtime_Options__json && c.Runtime_Options__interactive then false
       else c.Runtime_Options__json) ∧
      c'.Runtime_Options__interactive = c.Runtime_Options__interactive := by
    simp only [validate_commandline_settings] at h
    split_ifs at h <;> try exact Except.noConfusion h
    simp only [Except.ok.injEq] at h
    subst h
    simp only [updateRecursive_json, updateRecursive_interactive,
      updateCopyCommand_json, updateCopyCommand_interactive,
      updateTypeDefaults_json, updateTypeDefaults_interactive,
      updateJson_json, updateJson_interactive,
      updateGlob_json, updateGlob_interactive,
      updateNoGui_json, updateNoGui_interactive]
    exact ⟨by trivial, by trivial⟩
  refine ⟨hj.2, hj.1, ?_⟩
  intro htrue
  rw [hj.2]
  rw [hj.1] at htrue
  rcases hb : c.Runtime_Options__json <;>
    rcases hi : c.Runtime_Options__interactive <;>
      simp [hb, hi] at htrue ⊢

/-- C10 witness: a command line with both json and interactive set validates
to a config with json reset to false and interactive kept. -/
theorem C10_json_interactive_exclusive_witness :
    sampleCmdOut.Runtime_Options__interactive =
      sampleCmd.Runtime_Options__interactive ∧
    sampleCmdOut.Runtime_Options__json =
      (if sampleCmd.Runtime_Options__json &&
          sampleCmd.Runtime_Options__interactive then false
       else sampleCmd.Runtime_Options__json) ∧
    (sampleCmdOut.Runtime_Options__json = true →
      sampleCmdOut.Runtime_Options__interactive = false) :=
  C10_json_interactive_exclusive sampleCmdEnv sampleCmd sampleCmdOut (by rfl)

end ComicTagger
